import Mathlib

/-!
Verification development for the `trpc-zustand` store-adapter layer and the
`trpc-live` live-query registry.

The adapter source (`packages/demo-client/src/trpc.ts`) builds Zustand store
initializers around an untyped tRPC client.  Each store initializer closes over
a mutable `stop` closure; a trigger method (`query` / `mutate`) invokes the old
`stop`, installs a fresh closure that flips a locally captured `stopped` flag,
and the remote call's continuation checks that flag before calling `set`.  In
this shallow embedding the closure mechanics become explicit state: a machine
record carries the visible store state, a fresh-call counter `nextId`, and
`active : Option Nat`, the id of the one most recent call whose `stopped` flag
is still `false` (the source stops every previous call before starting a new
one, so at most one call can be unstopped at a time).  Invoking `stop` is
`active := none`; a remote settlement for call `id` applies its `set` exactly
when `active = some id`.

Promises are settled explicitly: a trigger method returns the new machine, the
id of the issued remote call (or the error the source throws, for a disabled
store), and settlement of call `id` with an outcome is a separate transition.
Side effects that do not touch store state (refetch fan-out of a mutation,
transport unsubscription of a subscription) are returned as event lists.
-/

namespace TrpcZustand

/-- The error the trigger methods fail with while the store is disabled.  The
source throws `new Error("...")` with a per-kind message. -/
structure DisabledError where
  message : String
deriving DecidableEq, Repr

/-! ### Query stores (`queryStoreCreatorFactory`) -/

/-- The visible state of a query store, from `QueryStoreCreator`:
`enabled`, `keepPreviousData`, `input`, `loading`, `data`, `error`.
`Option` stands for a possibly-`undefined` value. -/
structure QueryState (I O E : Type) where
  enabled : Bool
  keepPreviousData : Bool
  input : Option I
  loading : Bool
  data : Option O
  error : Option E
deriving DecidableEq, Repr

/-- A query store instance: visible state plus the explicit-state rendering of
the `stop` closure (see the file docstring). -/
structure QueryMachine (I O E : Type) where
  st : QueryState I O E
  nextId : Nat
  active : Option Nat
deriving DecidableEq, Repr

/-- `QueryStoreOptions`: `{ enabled?: boolean; keepPreviousData?: boolean }`.
`none` stands for an omitted option. -/
structure QueryStoreOptions where
  enabled : Option Bool := none
  keepPreviousData : Option Bool := none

/-- The initial store returned by the query store creator: destructured
defaults `enabled = true`, `keepPreviousData = true`, and
`initialState = { input: undefined, loading: false, data: undefined,
error: undefined }`. -/
def queryStoreInit {I O E : Type} (opts : QueryStoreOptions) : QueryMachine I O E :=
  { st :=
      { enabled := opts.enabled.getD true
        keepPreviousData := opts.keepPreviousData.getD true
        input := none
        loading := false
        data := none
        error := none }
    nextId := 0
    active := none }

/-- `enable: () => set({ enabled: true })`. -/
def QueryMachine.enable {I O E : Type} (m : QueryMachine I O E) : QueryMachine I O E :=
  { m with st := { m.st with enabled := true } }

/-- `disable: () => { stop(); set({ enabled: false, ...initialState }); }`. -/
def QueryMachine.disable {I O E : Type} (m : QueryMachine I O E) : QueryMachine I O E :=
  { m with
    st := { m.st with enabled := false, input := none, loading := false,
                      data := none, error := none }
    active := none }

/-- `reset: () => { stop(); set({ ...initialState }); }` — `enabled` is not in
`initialState`, so it is untouched. -/
def QueryMachine.reset {I O E : Type} (m : QueryMachine I O E) : QueryMachine I O E :=
  { m with
    st := { m.st with input := none, loading := false, data := none, error := none }
    active := none }

/-- `toggle: () => { if (get().enabled) { get().disable(); } else { get().enable(); } }`. -/
def QueryMachine.toggle {I O E : Type} (m : QueryMachine I O E) : QueryMachine I O E :=
  if m.st.enabled then m.disable else m.enable

/-- The synchronous prefix of `query(input, opts)`: the disabled check and
throw, then `stop()`, the installation of a fresh `stopped` flag, and the
`set({ input, loading: true, data: keepPreviousData ? data : undefined,
error: undefined })` issued before the remote call.  Returns the machine after
this prefix and either the id of the remote call now in flight or the thrown
`DisabledError` (the method is `async`, so the throw reaches the caller as a
rejected promise). -/
def queryStart {I O E : Type} (m : QueryMachine I O E) (input : Option I) :
    QueryMachine I O E × Except DisabledError Nat :=
  if !m.st.enabled then
    (m, .error ⟨"Query is disabled"⟩)
  else
    let id := m.nextId
    ({ st :=
         { m.st with
           input := input
           loading := true
           data := if m.st.keepPreviousData then m.st.data else none
           error := none }
       nextId := id + 1
       active := some id }, .ok id)

/-- The state patch a settling query applies when its `stopped` flag is still
false: `set({ loading: false, data: result })` on success,
`set({ loading: false, error })` on failure. -/
def applyQuerySettle {I O E : Type} (st : QueryState I O E) (out : Except E O) :
    QueryState I O E :=
  match out with
  | .ok result => { st with loading := false, data := some result }
  | .error e => { st with loading := false, error := some e }

/-- Settlement of the remote call `id` issued by `queryStart`: the
continuation applies its `set` exactly when the call's `stopped` flag is still
false (`active = some id`); either way the promise returned to the caller
resolves or rejects with the remote outcome (`return result` / `throw error`). -/
def querySettle {I O E : Type} (m : QueryMachine I O E) (id : Nat) (out : Except E O) :
    QueryMachine I O E × Except E O :=
  if m.active = some id then
    ({ m with st := applyQuerySettle m.st out }, out)
  else
    (m, out)

/-- `refetch: async opts => get().query(get().input, opts)`. -/
def QueryMachine.refetch {I O E : Type} (m : QueryMachine I O E) :
    QueryMachine I O E × Except DisabledError Nat :=
  queryStart m m.st.input

/-! ### Mutation stores (`mutationStoreCreatorFactory`)

`ρ` is the type of store handles appearing in the `refetchStores` option. -/

/-- The visible state of a mutation store, from `MutationStoreCreator` (the
query shape minus `keepPreviousData`). -/
structure MutationState (I O E : Type) where
  enabled : Bool
  input : Option I
  loading : Bool
  data : Option O
  error : Option E
deriving DecidableEq, Repr

/-- A mutation store instance.  `refetchStores` keeps the configured callback;
`none` stands for an omitted option, and a callback returning `void` is
modelled as returning `[]` (the source guards the fan-out with
`refetchStores?.()?.forEach`, so both behave as an empty fan-out). -/
structure MutationMachine (I O E ρ : Type) where
  st : MutationState I O E
  refetchStores : Option (Unit → List ρ)
  nextId : Nat
  active : Option Nat

/-- `MutationStoreOptions`: `{ enabled?: boolean; refetchStores?: () => ... }`. -/
structure MutationStoreOptions (ρ : Type) where
  enabled : Option Bool := none
  refetchStores : Option (Unit → List ρ) := none

/-- The initial store returned by the mutation store creator (default
`enabled = true`, `initialState` as for queries). -/
def mutationStoreInit {I O E ρ : Type} (opts : MutationStoreOptions ρ) :
    MutationMachine I O E ρ :=
  { st :=
      { enabled := opts.enabled.getD true
        input := none
        loading := false
        data := none
        error := none }
    refetchStores := opts.refetchStores
    nextId := 0
    active := none }

/-- `enable: () => set({ enabled: true })`. -/
def MutationMachine.enable {I O E ρ : Type} (m : MutationMachine I O E ρ) :
    MutationMachine I O E ρ :=
  { m with st := { m.st with enabled := true } }

/-- `disable: () => { stop(); set({ enabled: false, ...initialState }); }`. -/
def MutationMachine.disable {I O E ρ : Type} (m : MutationMachine I O E ρ) :
    MutationMachine I O E ρ :=
  { m with
    st := { m.st with enabled := false, input := none, loading := false,
                      data := none, error := none }
    active := none }

/-- `reset: () => { stop(); set({ ...initialState }); }`. -/
def MutationMachine.reset {I O E ρ : Type} (m : MutationMachine I O E ρ) :
    MutationMachine I O E ρ :=
  { m with
    st := { m.st with input := none, loading := false, data := none, error := none }
    active := none }

/-- `toggle`, as for queries. -/
def MutationMachine.toggle {I O E ρ : Type} (m : MutationMachine I O E ρ) :
    MutationMachine I O E ρ :=
  if m.st.enabled then m.disable else m.enable

/-- The synchronous prefix of `mutate(input, opts)`: disabled check, `stop()`,
fresh `stopped` flag, and `set({ input, loading: true, data: undefined,
error: undefined })` before the remote call. -/
def mutateStart {I O E ρ : Type} (m : MutationMachine I O E ρ) (input : Option I) :
    MutationMachine I O E ρ × Except DisabledError Nat :=
  if !m.st.enabled then
    (m, .error ⟨"Mutation is disabled"⟩)
  else
    let id := m.nextId
    ({ m with
       st := { m.st with input := input, loading := true, data := none, error := none }
       nextId := id + 1
       active := some id }, .ok id)

/-- The state patch a settling mutation applies when not stopped. -/
def applyMutationSettle {I O E : Type} (st : MutationState I O E) (out : Except E O) :
    MutationState I O E :=
  match out with
  | .ok result => { st with loading := false, data := some result }
  | .error e => { st with loading := false, error := some e }

/-- Settlement of the remote call `id` issued by `mutateStart`.  When not
stopped, success additionally runs
`refetchStores?.()?.forEach(store => store.getState().refetch())`; the
middle component lists the store handles whose `refetch` that `forEach`
invokes, one entry per invocation, and it is not awaited — the promise outcome
(third component) is the remote outcome regardless. -/
def mutationSettle {I O E ρ : Type} (m : MutationMachine I O E ρ) (id : Nat)
    (out : Except E O) : MutationMachine I O E ρ × List ρ × Except E O :=
  if m.active = some id then
    ({ m with st := applyMutationSettle m.st out },
     (match out, m.refetchStores with
      | .ok _, some f => f ()
      | _, _ => []),
     out)
  else
    (m, [], out)

/-! ### Subscription stores (`subscriptionStoreCreatorFactory`)

For subscriptions the `stop` variable holds the transport's `unsubscribe`
handle of the most recent subscription (initially a no-op).  Calling it talks
only to the transport; it never touches store state.  The machine records what
the current `stop` closure would do (`stopTarget`), and operations return the
transport interactions they perform as a list of `TransportEvent`s.

The declared status type is the union `"idle" | "connecting" | "pending" |
"error"`, but at runtime the `onConnectionStateChange` handler writes the
transport-reported label through unchecked, so the embedded `status` field is
a `String`. -/

/-- A transport-side effect of a subscription-store operation. -/
inductive TransportEvent where
  | unsubscribe (id : Nat)
deriving DecidableEq, Repr

/-- What the store's current `stop` closure does when invoked: nothing (the
initial `let stop = () => {}`), or unsubscribe subscription `id`. -/
inductive StopTarget where
  | noop
  | unsub (id : Nat)
deriving DecidableEq, Repr

/-- The transport events produced by invoking a `stop` closure. -/
def StopTarget.events : StopTarget → List TransportEvent
  | .noop => []
  | .unsub id => [.unsubscribe id]

/-- The visible state of a subscription store, from
`SubscriptionStoreCreator`. -/
structure SubscriptionState (I O E : Type) where
  enabled : Bool
  input : Option I
  status : String
  data : Option O
  error : Option E
deriving DecidableEq, Repr

/-- A subscription store instance. -/
structure SubscriptionMachine (I O E : Type) where
  st : SubscriptionState I O E
  nextSub : Nat
  stopTarget : StopTarget
deriving DecidableEq, Repr

/-- `SubscriptionStoreOptions`: `{ enabled?: boolean }`. -/
structure SubscriptionStoreOptions where
  enabled : Option Bool := none

/-- The initial store returned by the subscription store creator:
`initialState = { input: undefined, status: "idle", data: undefined,
error: undefined }`. -/
def subscriptionStoreInit {I O E : Type} (opts : SubscriptionStoreOptions) :
    SubscriptionMachine I O E :=
  { st :=
      { enabled := opts.enabled.getD true
        input := none
        status := "idle"
        data := none
        error := none }
    nextSub := 0
    stopTarget := .noop }

/-- `enable: () => set({ enabled: true })`. -/
def SubscriptionMachine.enable {I O E : Type} (m : SubscriptionMachine I O E) :
    SubscriptionMachine I O E :=
  { m with st := { m.st with enabled := true } }

/-- `disable: () => { stop(); set({ enabled: false, ...initialState }); }` —
`stop()` fires the current unsubscribe handle (the handle itself stays in
`stop`, so `stopTarget` is unchanged). -/
def SubscriptionMachine.disable {I O E : Type} (m : SubscriptionMachine I O E) :
    SubscriptionMachine I O E × List TransportEvent :=
  ({ m with
     st := { m.st with enabled := false, input := none, status := "idle",
                       data := none, error := none } },
   m.stopTarget.events)

/-- `reset: () => { stop(); set({ ...initialState }); }`. -/
def SubscriptionMachine.reset {I O E : Type} (m : SubscriptionMachine I O E) :
    SubscriptionMachine I O E × List TransportEvent :=
  ({ m with
     st := { m.st with input := none, status := "idle", data := none, error := none } },
   m.stopTarget.events)

/-- `toggle`, as for queries (`enable` performs no transport interaction). -/
def SubscriptionMachine.toggle {I O E : Type} (m : SubscriptionMachine I O E) :
    SubscriptionMachine I O E × List TransportEvent :=
  if m.st.enabled then m.disable else (m.enable, [])

/-- `subscribe(input, opts)`: synchronous disabled check and throw (the method
is not `async`, so the throw is synchronous), then `stop()`,
`set({ input, status: "connecting", data: undefined, error: undefined })`,
then `client.subscription(...)` opens subscription `id` whose `unsubscribe`
handle becomes the new `stop` and is also the returned cancel function
(`return stop`).  Result: machine, transport events of the `stop()` call, and
the id the returned cancel function unsubscribes (or the thrown error). -/
def subscribeStart {I O E : Type} (m : SubscriptionMachine I O E) (input : Option I) :
    SubscriptionMachine I O E × List TransportEvent × Except DisabledError Nat :=
  if !m.st.enabled then
    (m, [], .error ⟨"Subscription is disabled"⟩)
  else
    let id := m.nextSub
    ({ st :=
         { m.st with input := input, status := "connecting", data := none, error := none }
       nextSub := id + 1
       stopTarget := .unsub id },
     m.stopTarget.events, .ok id)

/-- Invoking the cancel function `subscribe` returned for subscription `id`:
it is the transport's `unsubscribe` handle, so it emits that transport event
and does nothing else — the machine (state and `stop` variable) is unchanged. -/
def cancelSubscription {I O E : Type} (m : SubscriptionMachine I O E) (id : Nat) :
    SubscriptionMachine I O E × List TransportEvent :=
  (m, [.unsubscribe id])

/-- The optional user callback a transport handler invokes in addition to its
`set`. -/
inductive UserCallback (O E : Type) where
  | started
  | dataCb (d : O)
  | errorCb (e : E)
deriving DecidableEq, Repr

/-- Handler `onStarted`: `set({ status: "pending", error: undefined });
onStarted?.();`. -/
def subscriptionOnStarted {I O E : Type} (s : SubscriptionState I O E) :
    SubscriptionState I O E × List (UserCallback O E) :=
  ({ s with status := "pending", error := none }, [.started])

/-- Handler `onData`: `set({ status: "pending", data, error: undefined });
onData?.(data);`. -/
def subscriptionOnData {I O E : Type} (s : SubscriptionState I O E) (d : O) :
    SubscriptionState I O E × List (UserCallback O E) :=
  ({ s with status := "pending", data := some d, error := none }, [.dataCb d])

/-- Handler `onError`: `set({ status: "error", error }); onError?.(error);`. -/
def subscriptionOnError {I O E : Type} (s : SubscriptionState I O E) (e : E) :
    SubscriptionState I O E × List (UserCallback O E) :=
  ({ s with status := "error", error := some e }, [.errorCb e])

/-- Handler `onConnectionStateChange`:
`set({ status: result.state, error: result.error ?? undefined })` — the
reported label is copied into `status` unchecked, and no user callback runs. -/
def subscriptionOnConnectionStateChange {I O E : Type} (s : SubscriptionState I O E)
    (label : String) (err : Option E) : SubscriptionState I O E :=
  { s with status := label, error := err }

/-! ### Procedure-tree dispatch (`createTRPCZustand`)

`createTRPCZustand` returns `createProxy()`: a `Proxy` whose `get` trap
returns `createProxy([...path, prop])` for every property name, and whose
`apply` trap inspects only the last path segment, switching on
`"queryStore" | "mutationStore" | "subscriptionStore"` (a `switch` with no
default, so any other terminal yields `undefined`), with the remaining
segments joined by `"."` as the remote-procedure address. -/

/-- The proxy value: nothing but the accumulated path. -/
structure PathProxy where
  path : List String
deriving DecidableEq, Repr

/-- `createProxy(path = [])`. -/
def createProxy (path : List String) : PathProxy := ⟨path⟩

/-- The `get` trap: `createProxy([...path, prop])`, for every property name,
with no evaluation or validation of the path. -/
def PathProxy.getProp (p : PathProxy) (prop : String) : PathProxy :=
  ⟨p.path ++ [prop]⟩

/-- Traversing a chain of property accesses from a proxy. -/
def PathProxy.getChain (p : PathProxy) (props : List String) : PathProxy :=
  props.foldl PathProxy.getProp p

/-- The store creator the `apply` trap produces (abstracting the three
factory functions by their kind and the `opPath` they receive). -/
inductive StoreCreatorResult where
  | queryStore (opPath : String)
  | mutationStore (opPath : String)
  | subscriptionStore (opPath : String)
deriving DecidableEq, Repr

/-- The `apply` trap: `op = path[path.length - 1]`,
`opPath = path.slice(0, -1).join(".")`, then the `switch` on `op`; `none`
stands for the `undefined` a JS function call returns when the `switch`
matches no case. -/
def PathProxy.applyTrap (p : PathProxy) : Option StoreCreatorResult :=
  let op := p.path.getLast?
  let opPath := String.intercalate "." p.path.dropLast
  if op = some "queryStore" then some (.queryStore opPath)
  else if op = some "mutationStore" then some (.mutationStore opPath)
  else if op = some "subscriptionStore" then some (.subscriptionStore opPath)
  else none

/-! ### Live-query registry (`trpc-live`)

Modelled from the spec: the `InMemoryLiveStore` implementation
(`register` / `invalidate` / `count`) is not among the source files — only its
README-level API description is — so the registry is modelled from the spec's
words: a registration is one re-run callback owned once and indexed under a
non-empty set of distinct normalized keys; `invalidate(keys)` invokes the
re-run callback of every distinct registration found under the union of the
given keys exactly once, deduplicating by registration identity, not by key.
Registrations are identified by the `Nat` id handed out at registration time;
`invalidate` returns the ids whose callbacks it invokes, one entry per
invocation. -/

/-- A registration: identity plus the distinct keys it is filed under. -/
structure Registration where
  id : Nat
  keys : List String
deriving DecidableEq, Repr

/-- The registry: the owned registrations and the next fresh id. -/
structure LiveRegistry where
  regs : List Registration
  nextId : Nat
deriving DecidableEq, Repr

/-- Modelled from the spec: the empty registry. -/
def LiveRegistry.empty : LiveRegistry := ⟨[], 0⟩

/-- Modelled from the spec: `register(keys, rerun)` normalizes `keys` to an
ordered set of distinct strings and inserts one registration under all of
them atomically; returns the new registry and the registration's id. -/
def LiveRegistry.registerKeys (r : LiveRegistry) (keys : List String) :
    LiveRegistry × Nat :=
  ({ regs := r.regs ++ [⟨r.nextId, keys.dedup⟩], nextId := r.nextId + 1 }, r.nextId)

/-- Whether a registration is found under the union of the given keys. -/
def Registration.matchesKeys (reg : Registration) (keys : List String) : Bool :=
  reg.keys.any (fun k => keys.contains k)

/-- Modelled from the spec: `invalidate(keys)` — the ids of the re-run
callbacks invoked, built by walking the owned registrations (not the keys),
so each matching registration contributes exactly one invocation. -/
def LiveRegistry.invalidate (r : LiveRegistry) (keys : List String) : List Nat :=
  (r.regs.filter (fun reg => reg.matchesKeys keys)).map Registration.id

/-- Modelled from the spec: `count(keys)` — the number of distinct
registrations under the union of the given keys. -/
def LiveRegistry.countKeys (r : LiveRegistry) (keys : List String) : Nat :=
  (r.regs.filter (fun reg => reg.matchesKeys keys)).length

/-! ### Concrete fixtures used to evaluate the theorems on closed inputs -/

/-- A default-option query store over `Nat` input/output/error values. -/
def c1QA : QueryMachine Nat Nat Nat := queryStoreInit ⟨none, none⟩

/-- `c1QA` after `query(1)` was issued (call id 0). -/
def c1QB : QueryMachine Nat Nat Nat := (queryStart c1QA (some 1)).1

/-- `c1QB` after `query(2)` was issued (call id 1) while call 0 is in flight. -/
def c1QC : QueryMachine Nat Nat Nat := (queryStart c1QB (some 2)).1

/-- A default-option mutation store over `Nat` values and `Nat` store handles. -/
def c1MA : MutationMachine Nat Nat Nat Nat := mutationStoreInit ⟨none, none⟩

/-- `c1MA` after `mutate(1)` was issued (call id 0). -/
def c1MB : MutationMachine Nat Nat Nat Nat := (mutateStart c1MA (some 1)).1

/-- `c1MB` after `mutate(2)` was issued (call id 1) while call 0 is in flight. -/
def c1MC : MutationMachine Nat Nat Nat Nat := (mutateStart c1MB (some 2)).1

/-- A query store created with `enabled: false`. -/
def c2Q : QueryMachine Nat Nat Nat := queryStoreInit ⟨some false, none⟩

/-- A mutation store created with `enabled: false`. -/
def c2M : MutationMachine Nat Nat Nat Nat := mutationStoreInit ⟨some false, none⟩

/-- A subscription store created with `enabled: false`. -/
def c2S : SubscriptionMachine Nat Nat Nat := subscriptionStoreInit ⟨some false⟩

/-- A `refetchStores` callback returning one store handle, `7`. -/
def c3Stores : Unit → List Nat := fun _ => [7]

/-- A mutation store configured with `refetchStores := c3Stores`, after
`mutate(1)` was issued (call id 0). -/
def c3M : MutationMachine Nat Nat Nat Nat :=
  (mutateStart (mutationStoreInit ⟨none, some c3Stores⟩) (some 1)).1

/-- A default-option query store with a previous result in `data`. -/
def c4Q : QueryMachine Nat Nat Nat :=
  (querySettle (queryStart (queryStoreInit ⟨none, none⟩) (some 1)).1 0 (.ok 5)).1

/-- `c4Q` after `query(2)` was issued. -/
def c4Q1 : QueryMachine Nat Nat Nat := (queryStart c4Q (some 2)).1

/-- A registry with one registration filed under keys `"a"` and `"b"`. -/
def c8Reg : LiveRegistry := (LiveRegistry.empty.registerKeys ["a", "b"]).1

/-! ### Helper lemmas -/

/-- Inversion of a successful `queryStart`: the store was enabled, the issued
call id is fresh, and the resulting machine is the pre-remote-call patch. -/
lemma queryStart_ok {I O E : Type} {m m1 : QueryMachine I O E} {i : Option I} {id : Nat}
    (h : queryStart m i = (m1, .ok id)) :
    id = m.nextId ∧
    m1 = { st :=
             { m.st with
               input := i
               loading := true
               data := if m.st.keepPreviousData then m.st.data else none
               error := none }
           nextId := m.nextId + 1
           active := some m.nextId } := by
  unfold queryStart at h
  split at h
  · simp at h
  · simp only [Prod.mk.injEq, Except.ok.injEq] at h
    exact ⟨h.2.symm, h.1.symm⟩

/-- Inversion of a successful `mutateStart`. -/
lemma mutateStart_ok {I O E ρ : Type} {m m1 : MutationMachine I O E ρ} {i : Option I}
    {id : Nat} (h : mutateStart m i = (m1, .ok id)) :
    id = m.nextId ∧
    m1 = { m with
           st := { m.st with input := i, loading := true, data := none, error := none }
           nextId := m.nextId + 1
           active := some m.nextId } := by
  unfold mutateStart at h
  split at h
  · simp at h
  · simp only [Prod.mk.injEq, Except.ok.injEq] at h
    exact ⟨h.2.symm, h.1.symm⟩

/-- A settlement whose call id is not the active one changes nothing. -/
lemma querySettle_stale {I O E : Type} {m : QueryMachine I O E} {id : Nat}
    (out : Except E O) (h : m.active ≠ some id) : querySettle m id out = (m, out) := by
  unfold querySettle
  simp [h]

/-- A settlement whose call id is the active one applies its patch. -/
lemma querySettle_active {I O E : Type} {m : QueryMachine I O E} {id : Nat}
    (out : Except E O) (h : m.active = some id) :
    querySettle m id out = ({ m with st := applyQuerySettle m.st out }, out) := by
  unfold querySettle
  simp [h]

/-! ### Claims -/

/-- C2: for every store whose `enabled` field is false, the trigger method
fails with the disabled error — thrown synchronously by `subscribe`, reaching
the caller as a rejected promise from the `async` `query` and `mutate` — the
store state is identical before and after the failed call, and a failed
`subscribe` performs no transport interaction. -/
theorem claim_c2 {I O E ρ : Type} (mq : QueryMachine I O E) (mm : MutationMachine I O E ρ)
    (ms : SubscriptionMachine I O E) (iq im is : Option I)
    (hq : mq.st.enabled = false) (hm : mm.st.enabled = false)
    (hs : ms.st.enabled = false) :
    queryStart mq iq = (mq, .error ⟨"Query is disabled"⟩) ∧
    mutateStart mm im = (mm, .error ⟨"Mutation is disabled"⟩) ∧
    subscribeStart ms is = (ms, [], .error ⟨"Subscription is disabled"⟩) := by
  refine ⟨?_, ?_, ?_⟩
  · unfold queryStart; simp [hq]
  · unfold mutateStart; simp [hm]
  · unfold subscribeStart; simp [hs]

/-- Witness for C2 at concrete disabled stores. -/
theorem claim_c2_witness :
    c2Q.st.enabled = false ∧ c2M.st.enabled = false ∧ c2S.st.enabled = false ∧
    (queryStart c2Q (some 3) = (c2Q, .error ⟨"Query is disabled"⟩) ∧
     mutateStart c2M (some 3) = (c2M, .error ⟨"Mutation is disabled"⟩) ∧
     subscribeStart c2S (some 3) = (c2S, [], .error ⟨"Subscription is disabled"⟩)) :=
  ⟨rfl, rfl, rfl, claim_c2 c2Q c2M c2S (some 3) (some 3) (some 3) rfl rfl rfl⟩

/-- C4: every successful `query(input, opts)` call on an enabled store, before
the remote call is issued, sets `loading = true`, stores `input`, clears
`error`, and preserves `data` exactly when `keepPreviousData` is true — the
default, as the freshly created store shows. -/
theorem claim_c4 {I O E : Type} (m m1 : QueryMachine I O E) (input : Option I) (id : Nat)
    (h : queryStart m input = (m1, .ok id)) :
    m1.st.loading = true ∧
    m1.st.input = input ∧
    m1.st.error = none ∧
    m1.st.data = (if m.st.keepPreviousData then m.st.data else none) ∧
    (queryStoreInit ⟨none, none⟩ : QueryMachine I O E).st.keepPreviousData = true := by
  obtain ⟨-, hm1⟩ := queryStart_ok h
  subst hm1
  exact ⟨rfl, rfl, rfl, rfl, rfl⟩

/-- Witness for C4: a store holding `data = some 5` queried again keeps it
while loading. -/
theorem claim_c4_witness :
    queryStart c4Q (some 2) = (c4Q1, .ok 1) ∧
    (c4Q1.st.loading = true ∧
     c4Q1.st.input = some 2 ∧
     c4Q1.st.error = none ∧
     c4Q1.st.data = (if c4Q.st.keepPreviousData then c4Q.st.data else none) ∧
     (queryStoreInit ⟨none, none⟩ : QueryMachine Nat Nat Nat).st.keepPreviousData = true) :=
  ⟨rfl, claim_c4 c4Q c4Q1 (some 2) 1 rfl⟩

/-- C5: when the transport reports an error on an active subscription, the
`onError` handler sets `status` to `"error"`, stores the error, invokes the
optional user `onError` callback in addition, and leaves `data` (and `input`
and `enabled`) unchanged. -/
theorem claim_c5 {I O E : Type} (s : SubscriptionState I O E) (e : E) :
    (subscriptionOnError s e).1.status = "error" ∧
    (subscriptionOnError s e).1.error = some e ∧
    (subscriptionOnError s e).2 = [.errorCb e] ∧
    (subscriptionOnError s e).1.data = s.data ∧
    (subscriptionOnError s e).1.input = s.input ∧
    (subscriptionOnError s e).1.enabled = s.enabled :=
  ⟨rfl, rfl, rfl, rfl, rfl, rfl⟩

/-- C6: `reset()` on any store sets `input`, `data`, and `error` to
`undefined` and `loading` to false (`status` to `"idle"` for subscriptions),
cancels the in-flight operation (the active call token is dropped; the
subscription's stop handle is fired), and leaves `enabled` unchanged. -/
theorem claim_c6 {I O E ρ : Type} (mq : QueryMachine I O E) (mm : MutationMachine I O E ρ)
    (ms : SubscriptionMachine I O E) :
    (mq.reset.st.input = none ∧ mq.reset.st.data = none ∧ mq.reset.st.error = none ∧
     mq.reset.st.loading = false ∧ mq.reset.active = none ∧
     mq.reset.st.enabled = mq.st.enabled) ∧
    (mm.reset.st.input = none ∧ mm.reset.st.data = none ∧ mm.reset.st.error = none ∧
     mm.reset.st.loading = false ∧ mm.reset.active = none ∧
     mm.reset.st.enabled = mm.st.enabled) ∧
    (ms.reset.1.st.input = none ∧ ms.reset.1.st.data = none ∧
     ms.reset.1.st.error = none ∧ ms.reset.1.st.status = "idle" ∧
     ms.reset.2 = ms.stopTarget.events ∧
     ms.reset.1.st.enabled = ms.st.enabled) :=
  ⟨⟨rfl, rfl, rfl, rfl, rfl, rfl⟩, ⟨rfl, rfl, rfl, rfl, rfl, rfl⟩,
   ⟨rfl, rfl, rfl, rfl, rfl, rfl⟩⟩

/-- C7: the `onConnectionStateChange` handler copies the transport-reported
state label — an arbitrary string, not validated against the declared
enumeration — directly into `status`, stores the reported error (or
`undefined`), and leaves `data`, `input`, and `enabled` unchanged. -/
theorem claim_c7 {I O E : Type} (s : SubscriptionState I O E) (label : String)
    (err : Option E) :
    (subscriptionOnConnectionStateChange s label err).status = label ∧
    (subscriptionOnConnectionStateChange s label err).error = err ∧
    (subscriptionOnConnectionStateChange s label err).data = s.data ∧
    (subscriptionOnConnectionStateChange s label err).input = s.input ∧
    (subscriptionOnConnectionStateChange s label err).enabled = s.enabled :=
  ⟨rfl, rfl, rfl, rfl, rfl⟩

/-- C9: the cancel function `subscribe` returns only invokes the transport's
`unsubscribe` handle and never calls `set`: the machine — in particular
`status`, `data`, `error`, and `input` — is exactly what it was before the
call. -/
theorem claim_c9 {I O E : Type} (m : SubscriptionMachine I O E) (id : Nat) :
    (cancelSubscription m id).1 = m ∧
    (cancelSubscription m id).1.st.status = m.st.status ∧
    (cancelSubscription m id).1.st.data = m.st.data ∧
    (cancelSubscription m id).1.st.error = m.st.error ∧
    (cancelSubscription m id).1.st.input = m.st.input ∧
    (cancelSubscription m id).2 = [.unsubscribe id] :=
  ⟨rfl, rfl, rfl, rfl, rfl, rfl⟩

/-- C1: after `query(a)` then `query(b)` with `b` issued before `a` settles,
`a`'s settlement — before or after `b`'s — performs no state mutation, and
`b`'s settlement applies `b`'s outcome; likewise for `mutate`, where the
superseded call additionally triggers no refetch fan-out. -/
theorem claim_c1 {I O E ρ : Type} (mq mq1 mq2 : QueryMachine I O E) (ia ib : Nat)
    (i1 i2 : Option I) (outA outB : Except E O)
    (mm mm1 mm2 : MutationMachine I O E ρ) (ja jb : Nat)
    (j1 j2 : Option I) (outC outD : Except E O)
    (hA : queryStart mq i1 = (mq1, .ok ia))
    (hB : queryStart mq1 i2 = (mq2, .ok ib))
    (gA : mutateStart mm j1 = (mm1, .ok ja))
    (gB : mutateStart mm1 j2 = (mm2, .ok jb)) :
    (querySettle mq2 ia outA).1 = mq2 ∧
    (querySettle mq2 ib outB).1.st = applyQuerySettle mq2.st outB ∧
    (querySettle (querySettle mq2 ib outB).1 ia outA).1 = (querySettle mq2 ib outB).1 ∧
    (mutationSettle mm2 ja outC).1 = mm2 ∧
    (mutationSettle mm2 ja outC).2.1 = [] ∧
    (mutationSettle mm2 jb outD).1.st = applyMutationSettle mm2.st outD := by
  obtain ⟨hia, hm1⟩ := queryStart_ok hA
  obtain ⟨hib, hm2⟩ := queryStart_ok hB
  obtain ⟨hja, hn1⟩ := mutateStart_ok gA
  obtain ⟨hjb, hn2⟩ := mutateStart_ok gB
  subst hm1; subst hm2; subst hn1; subst hn2
  subst hia; subst hib; subst hja; subst hjb
  have hne : mq.nextId ≠ mq.nextId + 1 := Nat.ne_of_lt (Nat.lt_succ_self _)
  have gne : mm.nextId ≠ mm.nextId + 1 := Nat.ne_of_lt (Nat.lt_succ_self _)
  refine ⟨?_, ?_, ?_, ?_, ?_, ?_⟩
  · simp [querySettle, hne.symm]
  · simp [querySettle]
  · simp [querySettle, hne.symm]
  · simp [mutationSettle, gne.symm]
  · simp [mutationSettle, gne.symm]
  · simp [mutationSettle]

/-- Witness for C1: two overlapping queries and two overlapping mutations on
freshly created stores; the superseded call 0 settles without effect, call 1's
outcome lands. -/
theorem claim_c1_witness :
    queryStart c1QA (some 1) = (c1QB, .ok 0) ∧
    queryStart c1QB (some 2) = (c1QC, .ok 1) ∧
    mutateStart c1MA (some 1) = (c1MB, .ok 0) ∧
    mutateStart c1MB (some 2) = (c1MC, .ok 1) ∧
    ((querySettle c1QC 0 (.ok 5)).1 = c1QC ∧
     (querySettle c1QC 1 (.error 9)).1.st = applyQuerySettle c1QC.st (.error 9) ∧
     (querySettle (querySettle c1QC 1 (.error 9)).1 0 (.ok 5)).1 =
       (querySettle c1QC 1 (.error 9)).1 ∧
     (mutationSettle c1MC 0 (.ok 5)).1 = c1MC ∧
     (mutationSettle c1MC 0 (.ok 5)).2.1 = [] ∧
     (mutationSettle c1MC 1 (.error 9)).1.st = applyMutationSettle c1MC.st (.error 9)) :=
  ⟨rfl, rfl, rfl, rfl,
   claim_c1 c1QA c1QB c1QC 0 1 (some 1) (some 2) (.ok 5) (.error 9)
     c1MA c1MB c1MC 0 1 (some 1) (some 2) (.ok 5) (.error 9) rfl rfl rfl rfl⟩

/-- C3: when a mutation with a configured `refetchStores` settles successfully
and has not been superseded, the emitted refetch fan-out is exactly the list
the callback returns — each returned store's `refetch` invoked once per
occurrence — and the settled promise outcome is the remote outcome,
independent of the refetches; a rejected or superseded settlement triggers no
refetch at all. -/
theorem claim_c3 {I O E ρ : Type} [DecidableEq ρ] (m : MutationMachine I O E ρ)
    (f : Unit → List ρ) (id sid : Nat) (r : O) (e : E) (out : Except E O)
    (hf : m.refetchStores = some f) (h : m.active = some id)
    (h' : m.active ≠ some sid) :
    (mutationSettle m id (.ok r)).2.1 = f () ∧
    (∀ q : ρ, ((mutationSettle m id (.ok r)).2.1).count q = (f ()).count q) ∧
    (mutationSettle m id (.ok r)).2.2 = .ok r ∧
    (mutationSettle m id (.error e)).2.1 = [] ∧
    (mutationSettle m id (.error e)).2.2 = .error e ∧
    (mutationSettle m sid out).2.1 = [] := by
  refine ⟨?_, ?_, ?_, ?_, ?_, ?_⟩
  · simp [mutationSettle, h, hf]
  · intro q; simp [mutationSettle, h, hf]
  · simp [mutationSettle, h]
  · simp [mutationSettle, h]
  · simp [mutationSettle, h]
  · simp [mutationSettle, h']

/-- Witness for C3: a mutation store configured with one refetch target,
store handle `7`. -/
theorem claim_c3_witness :
    c3M.refetchStores = some c3Stores ∧ c3M.active = some 0 ∧ c3M.active ≠ some 1 ∧
    ((mutationSettle c3M 0 (.ok 5)).2.1 = c3Stores () ∧
     (∀ q : Nat, ((mutationSettle c3M 0 (.ok 5)).2.1).count q = (c3Stores ()).count q) ∧
     (mutationSettle c3M 0 (.ok 5)).2.2 = .ok 5 ∧
     (mutationSettle c3M 0 (.error 9)).2.1 = [] ∧
     (mutationSettle c3M 0 (.error 9)).2.2 = .error 9 ∧
     (mutationSettle c3M 1 (.error 9)).2.1 = []) :=
  ⟨rfl, rfl, by decide,
   claim_c3 c3M c3Stores 0 1 5 9 (.error 9) rfl rfl (by decide)⟩

/-- Chained property accesses only accumulate path segments. -/
lemma getChain_path (p : PathProxy) (props : List String) :
    (p.getChain props).path = p.path ++ props := by
  induction props generalizing p with
  | nil => simp [PathProxy.getChain]
  | cons a l ih =>
      show ((p.getProp a).getChain l).path = p.path ++ (a :: l)
      rw [ih, PathProxy.getProp, List.append_assoc]
      rfl

/-- C10: property access on the `createTRPCZustand` proxy never evaluates or
validates the path — any chain of accesses succeeds and merely accumulates
segments — and invoking a terminal segment other than `queryStore`,
`mutationStore`, or `subscriptionStore` returns `undefined` rather than
throwing. -/
theorem claim_c10 (props : List String) (t : String)
    (h : t ≠ "queryStore" ∧ t ≠ "mutationStore" ∧ t ≠ "subscriptionStore") :
    ((createProxy []).getChain props).path = props ∧
    ((createProxy []).getChain (props ++ [t])).applyTrap = none := by
  constructor
  · rw [getChain_path]; rfl
  · have hpath : ((createProxy []).getChain (props ++ [t])).path = props ++ [t] := by
      rw [getChain_path]; rfl
    unfold PathProxy.applyTrap
    rw [hpath, List.getLast?_concat]
    simp [h.1, h.2.1, h.2.2]

/-- Witness for C10: traversing `trpc.todos.getTodos` and invoking a terminal
`fooStore` segment. -/
theorem claim_c10_witness :
    ("fooStore" ≠ "queryStore" ∧ "fooStore" ≠ "mutationStore" ∧
     "fooStore" ≠ "subscriptionStore") ∧
    (((createProxy []).getChain ["todos", "getTodos"]).path = ["todos", "getTodos"] ∧
     ((createProxy []).getChain
        (["todos", "getTodos"] ++ ["fooStore"])).applyTrap = none) :=
  ⟨by decide, claim_c10 ["todos", "getTodos"] "fooStore" (by decide)⟩

/-- Invalidation walks the owned registrations, so under unique identities a
matching registration contributes exactly one invocation. -/
lemma count_filter_map_id (l : List Registration) (p : Registration → Bool)
    (reg : Registration) (hN : (l.map Registration.id).Nodup) (hM : reg ∈ l)
    (hp : p reg = true) :
    ((l.filter p).map Registration.id).count reg.id = 1 := by
  induction l with
  | nil => cases hM
  | cons x xs ih =>
      rw [List.map_cons, List.nodup_cons] at hN
      obtain ⟨hx, hN'⟩ := hN
      rcases List.mem_cons.mp hM with hEq | hMem
      · subst hEq
        rw [List.filter_cons_of_pos hp, List.map_cons]
        have hz : ((xs.filter p).map Registration.id).count reg.id = 0 := by
          rw [List.count_eq_zero]
          intro hc
          rcases List.mem_map.mp hc with ⟨y, hy, hyid⟩
          exact hx (hyid ▸ List.mem_map_of_mem Registration.id (List.mem_of_mem_filter hy))
        rw [List.count_cons_self, hz]
      · have hxid : reg.id ≠ x.id := by
          intro hEq2
          exact hx (hEq2 ▸ List.mem_map_of_mem Registration.id hMem)
        by_cases hpx : p x = true
        · rw [List.filter_cons_of_pos hpx, List.map_cons,
              List.count_cons_of_ne hxid]
          exact ih hN' hMem
        · rw [List.filter_cons_of_neg (by simpa using hpx)]
          exact ih hN' hMem

/-- C8: under the union of the keys passed to `invalidate`, a matching
registration's re-run callback is invoked exactly once during the pass —
deduplicated by registration identity, not by key — however many of the
invalidated keys match it. -/
theorem claim_c8 (r : LiveRegistry) (reg : Registration) (keys : List String)
    (hN : (r.regs.map Registration.id).Nodup) (hM : reg ∈ r.regs)
    (hK : reg.matchesKeys keys = true) :
    (r.invalidate keys).count reg.id = 1 := by
  unfold LiveRegistry.invalidate
  exact count_filter_map_id r.regs _ reg hN hM hK

/-- Witness for C8: one registration filed under `"a"` and `"b"`;
`invalidate(["a","b"])` matches it under both keys yet invokes it once. -/
theorem claim_c8_witness :
    ((c8Reg.regs.map Registration.id).Nodup ∧
     (⟨0, ["a", "b"]⟩ : Registration) ∈ c8Reg.regs ∧
     (⟨0, ["a", "b"]⟩ : Registration).matchesKeys ["a", "b"] = true) ∧
    (c8Reg.invalidate ["a", "b"]).count 0 = 1 :=
  ⟨⟨by decide, by decide, by decide⟩,
   claim_c8 c8Reg ⟨0, ["a", "b"]⟩ ["a", "b"] (by decide) (by decide) (by decide)⟩

end TrpcZustand
